import Mathlib

/-!
Verification of `src/app/processor.py` from the stock-backtest-engine
repository.

The module holds two functions:

* `validate_input_message` — checks the incoming message against a schema
  (delegating to `validate_message_schema`) and raises
  `ValueError("Invalid message format")` on failure, otherwise returns the
  message unchanged;
* `run_backtest_job` — reads `job_id` / `strategy` / `symbol` with defaults,
  builds a fixed placeholder result and returns the Python merge
  `{**message, **result}`.

Python dictionaries with string keys are embedded as association lists with
first-match lookup; `setitem` overwrites an existing binding in place and
appends otherwise, so `merge d1 d2` has exactly the key/value semantics of
the Python merge `{**d1, **d2}`.  The numeric literals of the placeholder
metrics are only constructed and passed around, never computed with, so they
are represented exactly as rationals.  The schema validator lives in
`app.utils.validate_data`, outside the provided sources, and is modelled as
an arbitrary Boolean-valued function parameter.  A raising Python function is
embedded as an `Except`-valued function.
-/

/-- A Python value as used by the processor: strings, numeric literals and
    nested string-keyed dictionaries. -/
inductive Value where
  | str : String → Value
  | num : Rat → Value
  | dict : List (String × Value) → Value

/-- A Python `dict[str, Any]`: an association list, first match wins. -/
abbrev Dict := List (String × Value)

/-- `lookup d k` — the value bound to `k` in `d`, i.e. Python `d[k]`
    wrapped in `Option`. -/
def lookup : Dict → String → Option Value
  | [], _ => none
  | (a, v) :: rest, k => if a = k then some v else lookup rest k

/-- Python `k in d`. -/
def containsKey (d : Dict) (k : String) : Bool :=
  (lookup d k).isSome

/-- Python `d.get(k, default)`. -/
def dget (d : Dict) (k : String) (default : Value) : Value :=
  (lookup d k).getD default

/-- Python `d[k] = v`: overwrite the binding in place if the key is present,
    append it otherwise. -/
def setitem : Dict → String → Value → Dict
  | [], k, v => [(k, v)]
  | (a, w) :: rest, k, v =>
      if a = k then (k, v) :: rest else (a, w) :: setitem rest k v

/-- Python `\x7b**d1, **d2\x7d`: start from `d1` and write each binding of
    `d2` over it. -/
def merge (d1 d2 : Dict) : Dict :=
  d2.foldl (fun acc kv => setitem acc kv.1 kv.2) d1

/-- The Python exceptions the processor can raise. -/
inductive PyError where
  | valueError : String → PyError
deriving DecidableEq

/-- `validate_input_message` from `src/app/processor.py`.  The external
    schema checker `validate_message_schema` is passed as a parameter.
    `raise ValueError("Invalid message format")` becomes `Except.error`;
    the final `return message` becomes `Except.ok message`. -/
def validate_input_message (validate_message_schema : Dict → Bool)
    (message : Dict) : Except PyError Dict :=
  if !(validate_message_schema message) then
    Except.error (PyError.valueError "Invalid message format")
  else
    Except.ok message

/-- The hardcoded placeholder metrics dictionary of `run_backtest_job`. -/
def placeholderMetrics : Dict :=
  [("return_pct", Value.num 12.4),
   ("sharpe_ratio", Value.num 1.7),
   ("max_drawdown", Value.num (-4.8))]

/-- `run_backtest_job` from `src/app/processor.py`.  Every operation in the
    body (`dict.get` with a default, a dict literal, the final merge) is
    total, so the embedding is a plain function. -/
def run_backtest_job (message : Dict) : Dict :=
  let job_id := dget message "job_id" (Value.str "unknown")
  let strategy := dget message "strategy" (Value.str "unspecified")
  let symbol := dget message "symbol" (Value.str "UNKNOWN")
  let result : Dict :=
    [("job_id", job_id),
     ("symbol", symbol),
     ("strategy", strategy),
     ("status", Value.str "completed"),
     ("metrics", Value.dict placeholderMetrics)]
  merge message result

/-! ### Lemmas about the dictionary model -/

theorem lookup_insert_self (d : Dict) (k : String) (v : Value) :
    lookup (setitem d k v) k = some v := by
  induction d with
  | nil => simp [setitem, lookup]
  | cons hd tl ih =>
      obtain ⟨a, w⟩ := hd
      by_cases h : a = k
      · simp [setitem, lookup, h]
      · simp [setitem, lookup, h, ih]

theorem lookup_insert_ne (d : Dict) (k k' : String) (v : Value)
    (h : k ≠ k') : lookup (setitem d k v) k' = lookup d k' := by
  induction d with
  | nil => simp [setitem, lookup, h]
  | cons hd tl ih =>
      obtain ⟨a, w⟩ := hd
      by_cases ha : a = k
      · subst ha
        simp [setitem, lookup, h]
      · simp [setitem, lookup, ha, ih]

theorem containsKey_insert_of (d : Dict) (k k' : String) (v : Value)
    (h : containsKey d k' = true) :
    containsKey (setitem d k v) k' = true := by
  by_cases hk : k = k'
  · subst hk
    simp [containsKey, lookup_insert_self]
  · simpa [containsKey, lookup_insert_ne d k k' v hk] using h

/-- `run_backtest_job` unfolded to the five successive overwrites performed
    by the merge with the concrete result dictionary. -/
theorem run_backtest_job_eq (m : Dict) :
    run_backtest_job m =
      setitem (setitem (setitem (setitem (setitem m
        "job_id" (dget m "job_id" (Value.str "unknown")))
        "symbol" (dget m "symbol" (Value.str "UNKNOWN")))
        "strategy" (dget m "strategy" (Value.str "unspecified")))
        "status" (Value.str "completed"))
        "metrics" (Value.dict placeholderMetrics) := rfl

/-! ### The claims -/

/-- C1: for every message that passes schema validation,
    `validate_input_message` returns exactly the input message,
    unmodified. -/
theorem C1_validate_returns_input_unmodified
    (validate_message_schema : Dict → Bool) (m : Dict)
    (h : validate_message_schema m = true) :
    validate_input_message validate_message_schema m = Except.ok m := by
  simp [validate_input_message, h]

theorem C1_witness :
    (fun _ : Dict => true) [] = true ∧
      validate_input_message (fun _ => true) [] = Except.ok [] :=
  ⟨rfl, C1_validate_returns_input_unmodified (fun _ => true) [] rfl⟩

theorem dget_of_not_contains (m : Dict) (k : String) (v : Value)
    (h : containsKey m k = false) : dget m k v = v := by
  unfold containsKey at h
  unfold dget
  cases hl : lookup m k with
  | none => rfl
  | some w => rw [hl] at h; simp at h

theorem lookup_eq_some_dget (m : Dict) (k : String) (v : Value)
    (h : containsKey m k = true) : lookup m k = some (dget m k v) := by
  unfold containsKey at h
  unfold dget
  cases hl : lookup m k with
  | none => rw [hl] at h; simp at h
  | some w => rfl

/-- C2: schema-validation failure makes `validate_input_message` raise the
    `ValueError("Invalid message format")` error and return no result, while
    schema-validation success raises no error. -/
theorem C2_invalid_raises_valid_does_not
    (validate_message_schema : Dict → Bool) (m : Dict) :
    (validate_message_schema m = false →
      validate_input_message validate_message_schema m =
        Except.error (PyError.valueError "Invalid message format")) ∧
    (validate_message_schema m = true →
      (validate_input_message validate_message_schema m).isOk = true) := by
  constructor <;> intro h <;>
    simp [validate_input_message, h, Except.isOk, Except.toBool]

theorem C2_witness :
    validate_input_message (fun _ => false) [] =
      Except.error (PyError.valueError "Invalid message format") ∧
    (validate_input_message (fun _ => true) [("a", Value.str "b")]).isOk
      = true :=
  ⟨(C2_invalid_raises_valid_does_not (fun _ => false) []).1 rfl,
   (C2_invalid_raises_valid_does_not (fun _ => true)
      [("a", Value.str "b")]).2 rfl⟩

/-- C3: the result of `run_backtest_job` contains every key of the input plus
    `status` and `metrics`, and on a key collision the runner's
    `status`/`metrics` values win over the input's. -/
theorem C3_result_keys_and_precedence (m : Dict) :
    (∀ k, containsKey m k = true →
      containsKey (run_backtest_job m) k = true) ∧
    lookup (run_backtest_job m) "status" = some (Value.str "completed") ∧
    lookup (run_backtest_job m) "metrics" =
      some (Value.dict placeholderMetrics) := by
  refine ⟨?_, ?_, ?_⟩
  · intro k hk
    rw [run_backtest_job_eq]
    exact containsKey_insert_of _ _ _ _ (containsKey_insert_of _ _ _ _
      (containsKey_insert_of _ _ _ _ (containsKey_insert_of _ _ _ _
        (containsKey_insert_of _ _ _ _ hk))))
  · rw [run_backtest_job_eq,
      lookup_insert_ne _ _ _ _ (by decide : "metrics" ≠ "status"),
      lookup_insert_self]
  · rw [run_backtest_job_eq, lookup_insert_self]

theorem C3_witness :
    containsKey (run_backtest_job [("status", Value.str "pending")])
      "status" = true ∧
    lookup (run_backtest_job [("status", Value.str "pending")]) "status" =
      some (Value.str "completed") :=
  ⟨(C3_result_keys_and_precedence [("status", Value.str "pending")]).1
      "status" (by decide),
   (C3_result_keys_and_precedence [("status", Value.str "pending")]).2.1⟩

/-- C4: `run_backtest_job` on the message
    `{"job_id":"j1","strategy":"sma","symbol":"AAPL"}` returns exactly the
    input fields together with `status:"completed"` and the placeholder
    metrics. -/
theorem C4_concrete_example :
    run_backtest_job
      [("job_id", Value.str "j1"), ("strategy", Value.str "sma"),
       ("symbol", Value.str "AAPL")] =
      [("job_id", Value.str "j1"), ("strategy", Value.str "sma"),
       ("symbol", Value.str "AAPL"), ("status", Value.str "completed"),
       ("metrics", Value.dict
         [("return_pct", Value.num 12.4), ("sharpe_ratio", Value.num 1.7),
          ("max_drawdown", Value.num (-4.8))])] := rfl

/-- C5: a message missing `job_id` / `strategy` / `symbol` yields the
    defaults `"unknown"` / `"unspecified"` / `"UNKNOWN"` in the result;
    absence of these fields is never an error. -/
theorem C5_missing_fields_default (m : Dict) :
    (containsKey m "job_id" = false →
      lookup (run_backtest_job m) "job_id" = some (Value.str "unknown")) ∧
    (containsKey m "strategy" = false →
      lookup (run_backtest_job m) "strategy" =
        some (Value.str "unspecified")) ∧
    (containsKey m "symbol" = false →
      lookup (run_backtest_job m) "symbol" = some (Value.str "UNKNOWN")) := by
  refine ⟨?_, ?_, ?_⟩ <;> intro h <;> rw [run_backtest_job_eq]
  · rw [lookup_insert_ne _ _ _ _ (by decide : "metrics" ≠ "job_id"),
      lookup_insert_ne _ _ _ _ (by decide : "status" ≠ "job_id"),
      lookup_insert_ne _ _ _ _ (by decide : "strategy" ≠ "job_id"),
      lookup_insert_ne _ _ _ _ (by decide : "symbol" ≠ "job_id"),
      lookup_insert_self, dget_of_not_contains m "job_id" _ h]
  · rw [lookup_insert_ne _ _ _ _ (by decide : "metrics" ≠ "strategy"),
      lookup_insert_ne _ _ _ _ (by decide : "status" ≠ "strategy"),
      lookup_insert_self, dget_of_not_contains m "strategy" _ h]
  · rw [lookup_insert_ne _ _ _ _ (by decide : "metrics" ≠ "symbol"),
      lookup_insert_ne _ _ _ _ (by decide : "status" ≠ "symbol"),
      lookup_insert_ne _ _ _ _ (by decide : "strategy" ≠ "symbol"),
      lookup_insert_self, dget_of_not_contains m "symbol" _ h]

theorem C5_witness :
    lookup (run_backtest_job []) "job_id" = some (Value.str "unknown") ∧
    lookup (run_backtest_job []) "strategy" =
      some (Value.str "unspecified") ∧
    lookup (run_backtest_job []) "symbol" = some (Value.str "UNKNOWN") :=
  ⟨(C5_missing_fields_default []).1 rfl,
   (C5_missing_fields_default []).2.1 rfl,
   (C5_missing_fields_default []).2.2 rfl⟩

/-- C6: `run_backtest_job` always sets `status` to `"completed"` and
    `metrics` to the fixed placeholder mapping, regardless of input. -/
theorem C6_constant_status_and_metrics (m : Dict) :
    lookup (run_backtest_job m) "status" = some (Value.str "completed") ∧
    lookup (run_backtest_job m) "metrics" =
      some (Value.dict
        [("return_pct", Value.num 12.4), ("sharpe_ratio", Value.num 1.7),
         ("max_drawdown", Value.num (-4.8))]) := by
  constructor
  · rw [run_backtest_job_eq,
      lookup_insert_ne _ _ _ _ (by decide : "metrics" ≠ "status"),
      lookup_insert_self]
  · rw [run_backtest_job_eq, lookup_insert_self]
    rfl

/-- C7 counterexample: the error raised on schema-validation failure does
    not carry the rejected payload.  Two distinct rejected messages (of
    lengths 0 and 1) produce the very same error value, the constant
    `ValueError("Invalid message format")`, so the offending message is not
    recoverable from the error. -/
theorem C7_counterexample :
    validate_input_message (fun _ => false) [] =
      Except.error (PyError.valueError "Invalid message format") ∧
    validate_input_message (fun _ => false) [("a", Value.str "b")] =
      Except.error (PyError.valueError "Invalid message format") ∧
    List.length ([] : Dict) = 0 ∧
    List.length [("a", Value.str "b")] = 1 :=
  ⟨rfl, rfl, rfl, rfl⟩

/-- C7 (amended): when schema validation fails, the raised error is the
    `ValueError` carrying only the constant string
    `"Invalid message format"`; the rejected payload is written to the
    diagnostic log, not attached to the error value. -/
theorem C7_amended_constant_error
    (validate_message_schema : Dict → Bool) (m : Dict)
    (h : validate_message_schema m = false) :
    validate_input_message validate_message_schema m =
      Except.error (PyError.valueError "Invalid message format") := by
  simp [validate_input_message, h]

theorem C7_witness :
    validate_input_message (fun _ => false) [("x", Value.num 1)] =
      Except.error (PyError.valueError "Invalid message format") :=
  C7_amended_constant_error (fun _ => false) [("x", Value.num 1)] rfl

/-- C8: `run_backtest_job` is deterministic — equal input messages give
    equal result mappings; the embedding of the source is a pure function
    of the message alone, with no other state. -/
theorem C8_deterministic (m1 m2 : Dict) (h : m1 = m2) :
    run_backtest_job m1 = run_backtest_job m2 := by rw [h]

theorem C8_witness :
    run_backtest_job [("job_id", Value.str "j1")] =
      run_backtest_job [("job_id", Value.str "j1")] :=
  C8_deterministic [("job_id", Value.str "j1")]
    [("job_id", Value.str "j1")] rfl

/-- C9: `run_backtest_job` is total — for every dictionary input, the empty
    dictionary included, it returns a result mapping (carrying `status` and
    `metrics`) and never raises: every operation of the body is total, so
    the embedding needs no error monad. -/
theorem C9_total_on_dicts (m : Dict) :
    ∃ r : Dict, run_backtest_job m = r ∧
      containsKey r "status" = true ∧ containsKey r "metrics" = true := by
  refine ⟨run_backtest_job m, rfl, ?_, ?_⟩
  · rw [run_backtest_job_eq]
    simp [containsKey,
      lookup_insert_ne _ _ _ _ (by decide : "metrics" ≠ "status"),
      lookup_insert_self]
  · rw [run_backtest_job_eq]
    simp [containsKey, lookup_insert_self]

/-- C10: frame property — every key of the input other than `status` and
    `metrics` keeps its input value in the result of `run_backtest_job`
    (in particular present `job_id`/`strategy`/`symbol` values are
    preserved). -/
theorem C10_input_keys_preserved (m : Dict) (k : String)
    (hk : containsKey m k = true)
    (hs : k ≠ "status") (hm : k ≠ "metrics") :
    lookup (run_backtest_job m) k = lookup m k := by
  rw [run_backtest_job_eq,
    lookup_insert_ne _ _ _ _ (Ne.symm hm),
    lookup_insert_ne _ _ _ _ (Ne.symm hs)]
  by_cases h1 : k = "strategy"
  · subst h1
    rw [lookup_insert_self, lookup_eq_some_dget m "strategy" _ hk]
  by_cases h2 : k = "symbol"
  · subst h2
    rw [lookup_insert_ne _ _ _ _ (by decide : "strategy" ≠ "symbol"),
      lookup_insert_self, lookup_eq_some_dget m "symbol" _ hk]
  by_cases h3 : k = "job_id"
  · subst h3
    rw [lookup_insert_ne _ _ _ _ (by decide : "strategy" ≠ "job_id"),
      lookup_insert_ne _ _ _ _ (by decide : "symbol" ≠ "job_id"),
      lookup_insert_self, lookup_eq_some_dget m "job_id" _ hk]
  rw [lookup_insert_ne _ _ _ _ (Ne.symm h1),
    lookup_insert_ne _ _ _ _ (Ne.symm h2),
    lookup_insert_ne _ _ _ _ (Ne.symm h3)]

theorem C10_witness :
    lookup (run_backtest_job
        [("job_id", Value.str "j1"), ("universe", Value.str "sp500")])
      "universe" =
    lookup [("job_id", Value.str "j1"), ("universe", Value.str "sp500")]
      "universe" :=
  C10_input_keys_preserved
    [("job_id", Value.str "j1"), ("universe", Value.str "sp500")]
    "universe" (by decide) (by decide) (by decide)
